import Mathlib

/-!
Verification of the mastodon_exporter collection-and-publish pipeline.

The Rust sources embedded here are `src/collectors/instance.rs`,
`src/collectors/account.rs`, `src/mastodon.rs` and `src/main.rs`.
Pure library behaviour the collectors rely on (Rust `i64` string parsing,
chrono date parsing, the prometheus gauge registry) is modelled explicitly;
the collector and orchestrator control flow is translated statement by
statement from the Rust code, with `unwrap` failures made explicit as a
`panicked` outcome.
-/

namespace MastodonExporter

/-- Lower bound of Rust `i64`. -/
def i64Min : Int := -(2 ^ 63)

/-- Upper bound of Rust `i64`. -/
def i64Max : Int := 2 ^ 63 - 1

/-- Interpret a nonempty list of ASCII digit characters as a natural number;
`none` when the list is empty or contains a non-digit. -/
def digitsToNat : List Char → Option Nat
  | [] => none
  | cs => go cs 0
where
  go : List Char → Nat → Option Nat
    | [], acc => some acc
    | c :: cs, acc =>
      if c.isDigit then go cs (acc * 10 + (c.toNat - '0'.toNat)) else none

/-- Model of Rust `str::parse::<i64>()`: optional sign, one or more ASCII
digits, nothing else, and the value must fit in `i64`. -/
def parseI64Str (s : String) : Option Int :=
  let cs := s.toList
  let signed : Option (Bool × List Char) :=
    match cs with
    | '+' :: rest => some (false, rest)
    | '-' :: rest => some (true, rest)
    | rest => some (false, rest)
  match signed with
  | none => none
  | some (neg, digits) =>
    match digitsToNat digits with
    | none => none
    | some n =>
      let v : Int := if neg then -(n : Int) else (n : Int)
      if i64Min ≤ v ∧ v ≤ i64Max then some v else none

/-- Whether a (proleptic Gregorian) year is a leap year. -/
def isLeapYear (y : Int) : Bool :=
  (y % 4 == 0 && y % 100 != 0) || y % 400 == 0

/-- Number of days in a month of a given year; 0 for an invalid month. -/
def daysInMonth (y : Int) (m : Nat) : Nat :=
  match m with
  | 1 => 31 | 3 => 31 | 5 => 31 | 7 => 31 | 8 => 31 | 10 => 31 | 12 => 31
  | 4 => 30 | 6 => 30 | 9 => 30 | 11 => 30
  | 2 => if isLeapYear y then 29 else 28
  | _ => 0

/-- Whether (year, month, day) is a valid proleptic Gregorian calendar date. -/
def validDate (y : Int) (m d : Nat) : Bool :=
  1 ≤ m && m ≤ 12 && 1 ≤ d && d ≤ daysInMonth y m

/-- Days from 1970-01-01 to the given civil date (proleptic Gregorian),
negative for earlier dates. -/
def daysFromCivil (y : Int) (m d : Nat) : Int :=
  let yy : Int := if m ≤ 2 then y - 1 else y
  let era : Int := Int.fdiv yy 400
  let yoe : Int := yy - era * 400
  let mp : Nat := if 2 < m then m - 3 else m + 9
  let doy : Int := ((153 * (mp : Int) + 2) / 5) + (d : Int) - 1
  let doe : Int := yoe * 365 + Int.fdiv yoe 4 - Int.fdiv yoe 100 + doy
  era * 146097 + doe - 719468

/-- Unix timestamp of midnight UTC of a civil date. -/
def dateMidnightEpoch (y : Int) (m d : Nat) : Int :=
  daysFromCivil y m d * 86400

/-- Split a character list at the first occurrence of a separator,
returning the parts before and after it. -/
def splitAtChar (sep : Char) : List Char → Option (List Char × List Char)
  | [] => none
  | c :: cs =>
    if c == sep then some ([], cs)
    else match splitAtChar sep cs with
      | none => none
      | some (pre, post) => some (c :: pre, post)

/-- Parse an optionally signed year from the front of a date string:
a `-` or `+` sign followed by digits, or bare digits. -/
def parseYear (cs : List Char) : Option Int :=
  match cs with
  | '-' :: rest => (digitsToNat rest).map (fun n => -(n : Int))
  | '+' :: rest => (digitsToNat rest).map (fun n => (n : Int))
  | rest => (digitsToNat rest).map (fun n => (n : Int))

/-- Model of chrono `NaiveDate::parse_from_str(s, "%Y-%m-%d")`: a dash-separated
year, month and day, the whole string consumed, the date valid on the
calendar. Returns (year, month, day). -/
def parseDateYMD (s : String) : Option (Int × Nat × Nat) :=
  match splitAtChar '-' (s.toList.dropWhile (fun c => c == '-')) with
  | none => none
  | some (yTail, rest) =>
    let yChars := (s.toList.takeWhile (fun c => c == '-')) ++ yTail
    match parseYear yChars with
    | none => none
    | some y =>
      match splitAtChar '-' rest with
      | none => none
      | some (mChars, dChars) =>
        match digitsToNat mChars, digitsToNat dChars with
        | some m, some d =>
          if validDate y m d ∧ mChars.length ≤ 2 ∧ dChars.length ≤ 2 then
            some (y, m, d)
          else none
        | _, _ => none

/-- Model of the account collector's date handling
(`NaiveDate::parse_from_str(s, "%Y-%m-%d").unwrap().and_hms_opt(0,0,0)
.unwrap().timestamp()`): the Unix timestamp of midnight UTC of the parsed
date, or `none` when the date string does not parse. -/
def dateStrToEpoch (s : String) : Option Int :=
  (parseDateYMD s).map (fun ymd => dateMidnightEpoch ymd.1 ymd.2.1 ymd.2.2)

/-- Read exactly `k` ASCII digits from the front of a character list,
returning their value and the remaining characters. -/
def parseFixedDigits : Nat → List Char → Option (Nat × List Char)
  | 0, cs => some (0, cs)
  | _ + 1, [] => none
  | k + 1, c :: cs =>
    if c.isDigit then
      match parseFixedDigits k cs with
      | none => none
      | some (n, rest) => some ((c.toNat - '0'.toNat) * 10 ^ k + n, rest)
    else none

/-- Consume one expected character from the front of a character list. -/
def expectChar (c : Char) : List Char → Option (List Char)
  | [] => none
  | x :: xs => if x == c then some xs else none

/-- Parse the numeric-offset tail of an RFC 3339 timestamp: `Z`, `z`, or
`±HH:MM`, consuming the whole remaining input; returns offset seconds. -/
def parseRfcOffset : List Char → Option Int
  | ['Z'] => some 0
  | ['z'] => some 0
  | c :: cs =>
    if c == '+' ∨ c == '-' then
      match parseFixedDigits 2 cs with
      | none => none
      | some (oh, cs) =>
        match expectChar ':' cs with
        | none => none
        | some cs =>
          match parseFixedDigits 2 cs with
          | none => none
          | some (om, cs) =>
            if cs.isEmpty ∧ oh ≤ 23 ∧ om ≤ 59 then
              let secs : Int := (oh : Int) * 3600 + (om : Int) * 60
              some (if c == '-' then -secs else secs)
            else none
    else none
  | [] => none

/-- Model of chrono `str::parse::<DateTime<Utc>>()` (RFC 3339): date
`YYYY-MM-DD`, a `T`, `t` or space separator, time `HH:MM:SS` with an optional
fractional part, then `Z` or a `±HH:MM` offset; the result is the Unix
timestamp (`.timestamp()`), with the fraction truncated and a leap second
folded into second 59. -/
def parseRfc3339ToEpoch (s : String) : Option Int :=
  match parseFixedDigits 4 s.toList with
  | none => none
  | some (y, cs) =>
  match expectChar '-' cs with
  | none => none
  | some cs =>
  match parseFixedDigits 2 cs with
  | none => none
  | some (mo, cs) =>
  match expectChar '-' cs with
  | none => none
  | some cs =>
  match parseFixedDigits 2 cs with
  | none => none
  | some (d, cs) =>
  match cs with
  | [] => none
  | sep :: cs =>
    if sep == 'T' ∨ sep == 't' ∨ sep == ' ' then
      match parseFixedDigits 2 cs with
      | none => none
      | some (h, cs) =>
      match expectChar ':' cs with
      | none => none
      | some cs =>
      match parseFixedDigits 2 cs with
      | none => none
      | some (mi, cs) =>
      match expectChar ':' cs with
      | none => none
      | some cs =>
      match parseFixedDigits 2 cs with
      | none => none
      | some (sec, cs) =>
      let afterFrac : Option (List Char) :=
        match cs with
        | '.' :: rest =>
          let digits := rest.takeWhile Char.isDigit
          if digits.isEmpty then none else some (rest.dropWhile Char.isDigit)
        | rest => some rest
      match afterFrac with
      | none => none
      | some cs =>
      match parseRfcOffset cs with
      | none => none
      | some off =>
        if validDate (y : Int) mo d ∧ h ≤ 23 ∧ mi ≤ 59 ∧ sec ≤ 60 then
          let sec := min sec 59
          some (dateMidnightEpoch (y : Int) mo d +
            (h : Int) * 3600 + (mi : Int) * 60 + (sec : Int) - off)
        else none
    else none

/-! ### JSON values and the serde-derived decoders of `src/mastodon.rs` -/

/-- A JSON value; numbers are restricted to integers, which covers every
field the exporter decodes. -/
inductive Json where
  | null
  | bool (b : Bool)
  | num (n : Int)
  | str (s : String)
  | arr (elems : List Json)
  | obj (fields : List (String × Json))
deriving Repr

/-- Look up a field of a JSON object by name (first occurrence);
`none` when absent or when the value is not an object. -/
def Json.getField : Json → String → Option Json
  | .obj fields, name =>
    match fields.find? (fun f => f.1 == name) with
    | some f => some f.2
    | none => none
  | _, _ => none

/-- Decode a JSON value as a Rust `String`. -/
def Json.asString : Json → Option String
  | .str s => some s
  | _ => none

/-- Decode a JSON value as a Rust `i64`. -/
def Json.asI64 : Json → Option Int
  | .num n => if i64Min ≤ n ∧ n ≤ i64Max then some n else none
  | _ => none

/-- Decode a JSON value as a Rust `bool`. -/
def Json.asBool : Json → Option Bool
  | .bool b => some b
  | _ => none

/-- `InstanceRegistrations` of `src/mastodon.rs`: the `registrations`
sub-object of an instance response. -/
structure InstanceRegistrations where
  enabled : Bool
  approval_required : Bool
deriving DecidableEq, Repr

/-- `InstanceResponse` of `src/mastodon.rs`. -/
structure InstanceResponse where
  domain : String
  title : String
  version : String
  registrations : InstanceRegistrations
deriving DecidableEq, Repr

/-- `AccountResponse` of `src/mastodon.rs`. -/
structure AccountResponse where
  username : String
  followers_count : Int
  following_count : Int
  statuses_count : Int
  last_status_at : Option String
deriving DecidableEq, Repr

/-- Decode a required field with a given field decoder, serde-style:
a missing field or a type mismatch is a decode error. -/
def decodeField (j : Json) (name : String) (dec : Json → Option α) :
    Except String α :=
  match j.getField name with
  | none => .error ("missing field " ++ name)
  | some v =>
    match dec v with
    | none => .error ("invalid type for field " ++ name)
    | some a => .ok a

/-- serde decoder for `InstanceRegistrations`: both fields required,
unknown fields ignored (serde default). -/
def decodeInstanceRegistrations (j : Json) : Except String InstanceRegistrations :=
  match j with
  | .obj _ =>
    match decodeField j "enabled" Json.asBool with
    | .error e => .error e
    | .ok enabled =>
      match decodeField j "approval_required" Json.asBool with
      | .error e => .error e
      | .ok approval_required => .ok ⟨enabled, approval_required⟩
  | _ => .error "invalid type: expected struct InstanceRegistrations"

/-- serde decoder for `InstanceResponse`: `domain`, `title`, `version` and
`registrations` required, unknown fields ignored (serde default). -/
def decodeInstanceResponse (j : Json) : Except String InstanceResponse :=
  match j with
  | .obj _ =>
    match decodeField j "domain" Json.asString with
    | .error e => .error e
    | .ok domain =>
      match decodeField j "title" Json.asString with
      | .error e => .error e
      | .ok title =>
        match decodeField j "version" Json.asString with
        | .error e => .error e
        | .ok version =>
          match j.getField "registrations" with
          | none => .error "missing field registrations"
          | some r =>
            match decodeInstanceRegistrations r with
            | .error e => .error e
            | .ok registrations => .ok ⟨domain, title, version, registrations⟩
  | _ => .error "invalid type: expected struct InstanceResponse"

/-- serde decoder for `Option<String>`: an absent field or JSON `null`
decodes to `none`, a string to `some`, anything else is an error. -/
def decodeOptStringField (j : Json) (name : String) :
    Except String (Option String) :=
  match j.getField name with
  | none => .ok none
  | some .null => .ok none
  | some (.str s) => .ok (some s)
  | some _ => .error ("invalid type for field " ++ name)

/-- serde decoder for `AccountResponse`: `username` and the three counts
required, `last_status_at` optional, unknown fields ignored (serde default). -/
def decodeAccountResponse (j : Json) : Except String AccountResponse :=
  match j with
  | .obj _ =>
    match decodeField j "username" Json.asString with
    | .error e => .error e
    | .ok username =>
      match decodeField j "followers_count" Json.asI64 with
      | .error e => .error e
      | .ok followers_count =>
        match decodeField j "following_count" Json.asI64 with
        | .error e => .error e
        | .ok following_count =>
          match decodeField j "statuses_count" Json.asI64 with
          | .error e => .error e
          | .ok statuses_count =>
            match decodeOptStringField j "last_status_at" with
            | .error e => .error e
            | .ok last_status_at =>
              .ok ⟨username, followers_count, following_count,
                statuses_count, last_status_at⟩
  | _ => .error "invalid type: expected struct AccountResponse"

/-! ### The metric registry

Modelled from the spec: the Metric Registry is the prometheus crate
(`Registry` / `IntGaugeVec`), which is not part of the repository sources.
Per §4.3 of the spec it is a collection of named gauges indexed by label
tuple with upsert semantics (`setGauge`) and a serialization (`snapshot`)
emitting one line per live series instance. -/

/-- An ordered tuple of label values. -/
abbrev LabelTuple := List String

/-- One gauge update, as performed by
`GAUGE.with_label_values(&labels).set(value)`. -/
structure GaugeWrite where
  series : String
  labels : LabelTuple
  value : Int
deriving DecidableEq, Repr

/-- The registry state: the live series instances, each an association of a
(series name, label tuple) key with its current value. -/
abbrev Registry := List ((String × LabelTuple) × Int)

/-- Modelled from the spec: `setGauge` upserts — when the (series, labels)
key is live its value is replaced (the first occurrence; keys are unique in
every reachable registry), otherwise a new series instance is appended. -/
def setGauge (reg : Registry) (series : String) (labels : LabelTuple)
    (value : Int) : Registry :=
  match reg with
  | [] => [((series, labels), value)]
  | e :: rest =>
    if e.1 = (series, labels) then (e.1, value) :: rest
    else e :: setGauge rest series labels value

/-- Apply a sequence of gauge writes to the registry, in order. -/
def applyWrites (reg : Registry) (ws : List GaugeWrite) : Registry :=
  ws.foldl (fun r w => setGauge r w.series w.labels w.value) reg

/-- The current value of a series instance, `none` when the key is not live. -/
def lookupGauge (reg : Registry) (k : String × LabelTuple) : Option Int :=
  (reg.find? (fun e => decide (e.1 = k))).map Prod.snd

/-- Number of live entries with a given (series, labels) key. -/
def countKey (reg : Registry) (k : String × LabelTuple) : Nat :=
  reg.countP (fun e => decide (e.1 = k))

/-- Whether the registry has no two entries with the same key; holds for
every registry built by applying writes to the empty registry. -/
def keysNodup (reg : Registry) : Prop :=
  (reg.map Prod.fst).Nodup

/-- The label names of each registered gauge family, from the
`lazy_static` block of `src/main.rs`. -/
def labelNames (series : String) : LabelTuple :=
  if series = "mastodon_info" then ["instance", "domain", "title", "version"]
  else if series = "mastodon_account_followers_count" ∨
      series = "mastodon_account_following_count" ∨
      series = "mastodon_account_statuses_count" ∨
      series = "mastodon_account_last_status_at" then
    ["instance", "account_id", "username"]
  else ["instance"]

/-- Render one live series instance as one exposition-format line. -/
def renderEntry (e : (String × LabelTuple) × Int) : String :=
  let pairs := List.zipWith (fun n v => n ++ "=\x22" ++ v ++ "\x22")
    (labelNames e.1.1) e.1.2
  e.1.1 ++ "\x7b" ++ String.intercalate "," pairs ++ "\x7d " ++ toString e.2

/-- The lines of the serialized registry snapshot: one line per live series
instance. -/
def snapshotLines (reg : Registry) : List String :=
  reg.map renderEntry

/-- Modelled from the spec: `snapshot` serializes the entire registry,
one line per live series instance (`TextEncoder::encode` of
`REGISTRY.gather()`). -/
def snapshot (reg : Registry) : String :=
  String.intercalate "\n" (snapshotLines reg)

/-! ### HTTP responses, fetch outcomes, and the collectors -/

/-- The part of an HTTP response the collectors inspect: status code,
headers, decoded-JSON body. -/
structure HttpResponse where
  status : Nat
  headers : List (String × String)
  body : Json
deriving Repr

/-- `HeaderMap::get`: the value of the first header with the given name. -/
def headerGet (headers : List (String × String)) (name : String) :
    Option String :=
  (headers.find? (fun h => h.1 == name)).map Prod.snd

/-- A `reqwest::Error` as the collectors can observe it: the
`reqwest::get(url).await?` line fails on a transport error. -/
inductive ReqwestError where
  | network (msg : String)
deriving DecidableEq, Repr

/-- `StatusCode::is_client_error() || is_server_error()`, the condition
under which `error_for_status_ref` returns an error. -/
def isErrorStatus (status : Nat) : Bool :=
  400 ≤ status && status ≤ 599

/-- `i64::from(bool)`. -/
def boolToI64 (b : Bool) : Int :=
  if b then 1 else 0

/-- How one spawned collector task terminates: a normal `Ok(())` return, an
`Err` return (propagated transport error), or a panic from a failed
`unwrap`. -/
inductive TaskReturn where
  | ok
  | err (e : ReqwestError)
  | panicked (msg : String)
deriving DecidableEq, Repr

/-- Whether a task terminated by panicking. -/
def taskPanicked : TaskReturn → Bool
  | .panicked _ => true
  | _ => false

/-- `collect_instance` of `src/collectors/instance.rs`, as a function of the
instance name and of the outcome of its single `reqwest::get`: the task's
termination together with the gauge writes it performed, in order. -/
def collect_instance (inst : String)
    (net : Except ReqwestError HttpResponse) :
    TaskReturn × List GaugeWrite :=
  match net with
  | .error e => (.err e, [])
  | .ok response =>
    match headerGet response.headers "x-ratelimit-remaining" with
    | none => (.panicked "x-ratelimit-remaining header missing", [])
    | some remStr =>
    match parseI64Str remStr with
    | none => (.panicked "x-ratelimit-remaining did not parse as i64", [])
    | some ratelimit_remaining =>
    let w1 : GaugeWrite :=
      ⟨"mastodon_ratelimit_remaining", [inst], ratelimit_remaining⟩
    match headerGet response.headers "x-ratelimit-reset" with
    | none => (.panicked "x-ratelimit-reset header missing", [w1])
    | some resetStr =>
    match parseRfc3339ToEpoch resetStr with
    | none => (.panicked "x-ratelimit-reset did not parse as DateTime", [w1])
    | some ratelimit_reset =>
    let w2 : GaugeWrite :=
      ⟨"mastodon_ratelimit_reset", [inst], ratelimit_reset⟩
    if isErrorStatus response.status then
      -- `if let Err(err) = &response.error_for_status_ref()`:
      -- print the error, return Ok(())
      (.ok, [w1, w2])
    else
      match decodeInstanceResponse response.body with
      | .error e => (.panicked e, [w1, w2]) -- `.json().await.unwrap()`
      | .ok body =>
        let infoW : GaugeWrite :=
          ⟨"mastodon_info", [inst, body.domain, body.title, body.version], 1⟩
        let enW : GaugeWrite :=
          ⟨"mastodon_registrations_enabled", [inst],
            boolToI64 body.registrations.enabled⟩
        let apW : GaugeWrite :=
          ⟨"mastodon_registrations_approval_required", [inst],
            boolToI64 body.registrations.approval_required⟩
        (.ok, [w1, w2, infoW, enW, apW])

/-- `collect_account` of `src/collectors/account.rs`, as a function of the
target and of the outcome of its single `reqwest::get`. -/
def collect_account (inst account_id : String)
    (net : Except ReqwestError HttpResponse) :
    TaskReturn × List GaugeWrite :=
  match net with
  | .error e => (.err e, [])
  | .ok response =>
    match headerGet response.headers "x-ratelimit-remaining" with
    | none => (.panicked "x-ratelimit-remaining header missing", [])
    | some remStr =>
    match parseI64Str remStr with
    | none => (.panicked "x-ratelimit-remaining did not parse as i64", [])
    | some ratelimit_remaining =>
    let w1 : GaugeWrite :=
      ⟨"mastodon_ratelimit_remaining", [inst], ratelimit_remaining⟩
    match headerGet response.headers "x-ratelimit-reset" with
    | none => (.panicked "x-ratelimit-reset header missing", [w1])
    | some resetStr =>
    match parseRfc3339ToEpoch resetStr with
    | none => (.panicked "x-ratelimit-reset did not parse as DateTime", [w1])
    | some ratelimit_reset =>
    let w2 : GaugeWrite :=
      ⟨"mastodon_ratelimit_reset", [inst], ratelimit_reset⟩
    if isErrorStatus response.status then
      if response.status == 404 then
        -- `err.status() == Some(StatusCode::NOT_FOUND)`:
        -- print "Account not found", return Ok(())
        (.ok, [w1, w2])
      else
        -- print the error, return Ok(())
        (.ok, [w1, w2])
    else
      match decodeAccountResponse response.body with
      | .error e => (.panicked e, [w1, w2]) -- `.json().await.unwrap()`
      | .ok body =>
        let info_labels : LabelTuple := [inst, account_id, body.username]
        let w3 : GaugeWrite :=
          ⟨"mastodon_account_followers_count", info_labels, body.followers_count⟩
        let w4 : GaugeWrite :=
          ⟨"mastodon_account_following_count", info_labels, body.following_count⟩
        let w5 : GaugeWrite :=
          ⟨"mastodon_account_statuses_count", info_labels, body.statuses_count⟩
        match body.last_status_at with
        | none => (.ok, [w1, w2, w3, w4, w5])
        | some s =>
          match dateStrToEpoch s with
          | none =>
            -- `NaiveDate::parse_from_str(..).unwrap()` fails
            (.panicked "last_status_at did not parse as NaiveDate",
              [w1, w2, w3, w4, w5])
          | some ts =>
            (.ok, [w1, w2, w3, w4, w5,
              ⟨"mastodon_account_last_status_at", info_labels, ts⟩])

/-! ### The orchestrators and the scrape handler -/

/-- A `tokio::task::JoinError`: the spawned task panicked. -/
inductive JoinError where
  | panicked (msg : String)
deriving DecidableEq, Repr

/-- What `task.await` resolves to for a spawned collector task: `Err` of a
join error when the task panicked, otherwise `Ok` of the task's returned
`Result`. -/
def joinResult : TaskReturn → Except JoinError (Except ReqwestError Unit)
  | .ok => .ok (.ok ())
  | .err e => .ok (.error e)
  | .panicked m => .error (.panicked m)

/-- The await loop shared by `collect_instances` and `collect_accounts`:
`for task in tasks { task.await?.ok(); }` — a join error propagates via `?`,
a fetch-level `Result` is discarded by `.ok()`. -/
def awaitLoop : List (Except JoinError (Except ReqwestError Unit)) →
    Except JoinError Unit
  | [] => .ok ()
  | .error e :: _ => .error e
  | .ok _ :: ts => awaitLoop ts

/-- Number of `task.await` calls the await loop performs before returning. -/
def awaitedCount : List (Except JoinError (Except ReqwestError Unit)) → Nat
  | [] => 0
  | .error _ :: _ => 1
  | .ok _ :: ts => 1 + awaitedCount ts

/-- The join results of the tasks spawned by `collect_instances`, in spawn
order; each instance target is paired with the network outcome its fetch
encounters. -/
def instanceJoinResults
    (targets : List (String × Except ReqwestError HttpResponse)) :
    List (Except JoinError (Except ReqwestError Unit)) :=
  targets.map (fun t => joinResult (collect_instance t.1 t.2).1)

/-- The join results of the tasks spawned by `collect_accounts`. -/
def accountJoinResults
    (targets : List (String × String × Except ReqwestError HttpResponse)) :
    List (Except JoinError (Except ReqwestError Unit)) :=
  targets.map (fun t => joinResult (collect_account t.1 t.2.1 t.2.2).1)

/-- `collect_instances` of `src/collectors/instance.rs`: spawn one task per
configured instance, then run the await loop. Every spawned task runs to
completion on the runtime whether or not it is awaited, so the cycle's gauge
writes are the concatenation of every task's writes in spawn order. -/
def collect_instances
    (targets : List (String × Except ReqwestError HttpResponse)) :
    Except JoinError Unit × List GaugeWrite :=
  (awaitLoop (instanceJoinResults targets),
    (targets.map (fun t => (collect_instance t.1 t.2).2)).flatten)

/-- `collect_accounts` of `src/collectors/account.rs`. -/
def collect_accounts
    (targets : List (String × String × Except ReqwestError HttpResponse)) :
    Except JoinError Unit × List GaugeWrite :=
  (awaitLoop (accountJoinResults targets),
    (targets.map (fun t => (collect_account t.1 t.2.1 t.2.2).2)).flatten)

/-- A warp rejection, the error type of the `metrics` handler; the handler
never constructs one. -/
inductive WarpRejection where
  | rejection
deriving DecidableEq, Repr

/-- The prefix of per-task results the await loop actually observes before
returning: every task up to and including the first panicking one
(`task.await?` aborts the loop at the first join error, so later tasks are
spawned but never awaited). -/
def awaitedResults : List (TaskReturn × List GaugeWrite) →
    List (TaskReturn × List GaugeWrite)
  | [] => []
  | r :: rs => if taskPanicked r.1 then [r] else r :: awaitedResults rs

/-- The gauge writes guaranteed to have completed before
`collect_instances` returns: those of the tasks its await loop awaited. -/
def awaitedInstanceWrites
    (targets : List (String × Except ReqwestError HttpResponse)) :
    List GaugeWrite :=
  ((awaitedResults (targets.map (fun t => collect_instance t.1 t.2))).map
    Prod.snd).flatten

/-- The gauge writes guaranteed to have completed before
`collect_accounts` returns. -/
def awaitedAccountWrites
    (targets : List (String × String × Except ReqwestError HttpResponse)) :
    List GaugeWrite :=
  ((awaitedResults (targets.map
    (fun t => collect_account t.1 t.2.1 t.2.2))).map Prod.snd).flatten

/-- `metrics` of `src/main.rs` (lines 308–316): run `collect_instances` and
`collect_accounts`, discarding their results with `.ok()`, then serialize
the registry's current contents into the response body. Only the awaited
tasks' writes are guaranteed to precede the serialization; when a join
error aborts an await loop early, the remaining spawned fetches keep
running on the runtime and the subset of their writes that lands before
`gather()` is decided by a race, so it enters the model as the `inflight`
parameter (necessarily `[]` when every task was awaited, since then no
fetch is still in flight). Returns the response together with the registry
state at serialization time. -/
def metrics (reg : Registry)
    (instanceTargets : List (String × Except ReqwestError HttpResponse))
    (accountTargets : List (String × String × Except ReqwestError HttpResponse))
    (inflight : List GaugeWrite) :
    Except WarpRejection String × Registry :=
  let reg := applyWrites reg (awaitedInstanceWrites instanceTargets ++
    awaitedAccountWrites accountTargets ++ inflight)
  (.ok (snapshot reg), reg)

/-- The required top-level field names of an account response body. -/
def accountFieldNames : List String :=
  ["username", "followers_count", "following_count", "statuses_count",
    "last_status_at"]

/-- The required top-level field names of an instance response body. -/
def instanceFieldNames : List String :=
  ["domain", "title", "version", "registrations"]

/-! ### Concrete fixtures used by witnesses and counterexamples -/

/-- Well-formed rate-limit headers: 100 requests remaining, window resetting
at 2022-11-21T12:00:00Z. -/
def okHeaders : List (String × String) :=
  [("x-ratelimit-remaining", "100"),
    ("x-ratelimit-reset", "2022-11-21T12:00:00Z")]

/-- A well-formed instance response body. -/
def goodInstanceBody : Json :=
  .obj [("domain", .str "mas.to"), ("title", .str "Mastodon"),
    ("version", .str "4.0.0"),
    ("registrations", .obj [("enabled", .bool true),
      ("approval_required", .bool false)])]

/-- The fields of a well-formed account response body with a last status
date. -/
def goodAccountFields : List (String × Json) :=
  [("username", .str "shini"), ("followers_count", .num 100),
    ("following_count", .num 50), ("statuses_count", .num 200),
    ("last_status_at", .str "2022-11-21")]

/-- A well-formed account response body with a last status date. -/
def goodAccountBody : Json :=
  .obj goodAccountFields

/-! ### Registry lemmas -/

theorem lookupGauge_nil (k : String × LabelTuple) : lookupGauge [] k = none := rfl

theorem setGauge_lookup_self (reg : Registry) (s : String) (l : LabelTuple)
    (v : Int) : lookupGauge (setGauge reg s l v) (s, l) = some v := by
  induction reg with
  | nil => simp [setGauge, lookupGauge]
  | cons e rest ih =>
    unfold setGauge
    by_cases h : e.1 = (s, l)
    · simp [h, lookupGauge]
    · simpa [lookupGauge, List.find?_cons, h] using ih

theorem setGauge_lookup_other (reg : Registry) (s : String) (l : LabelTuple)
    (v : Int) (k : String × LabelTuple) (hk : k ≠ (s, l)) :
    lookupGauge (setGauge reg s l v) k = lookupGauge reg k := by
  have hsk : ((s, l) : String × LabelTuple) ≠ k := Ne.symm hk
  induction reg with
  | nil => simp [setGauge, lookupGauge, List.find?_cons, hsk]
  | cons e rest ih =>
    unfold setGauge
    by_cases h : e.1 = (s, l)
    · have hek : ¬(e.1 = k) := by rw [h]; exact hsk
      simp [h, lookupGauge, List.find?_cons, hek, hsk]
    · by_cases hek : e.1 = k
      · simp [h, lookupGauge, List.find?_cons, hek, hsk, hk]
      · simpa [h, lookupGauge, List.find?_cons, hek, hsk] using ih

theorem setGauge_keys (reg : Registry) (s : String) (l : LabelTuple)
    (v : Int) :
    (setGauge reg s l v).map Prod.fst =
      if (s, l) ∈ reg.map Prod.fst then reg.map Prod.fst
      else reg.map Prod.fst ++ [(s, l)] := by
  induction reg with
  | nil => simp [setGauge]
  | cons e rest ih =>
    unfold setGauge
    by_cases h : e.1 = (s, l)
    · simp [h]
    · by_cases hm : (s, l) ∈ rest.map Prod.fst
      · simp [h, ih, hm, Ne.symm h]
      · simp [h, ih, hm, Ne.symm h]

theorem mem_keys_setGauge (reg : Registry) (s : String) (l : LabelTuple)
    (v : Int) (k : String × LabelTuple) (hk : k ∈ reg.map Prod.fst) :
    k ∈ (setGauge reg s l v).map Prod.fst := by
  rw [setGauge_keys]
  split
  · exact hk
  · exact List.mem_append_left _ hk

theorem keysNodup_setGauge (reg : Registry) (s : String) (l : LabelTuple)
    (v : Int) (h : keysNodup reg) : keysNodup (setGauge reg s l v) := by
  unfold keysNodup at *
  rw [setGauge_keys]
  split
  · exact h
  · next hm =>
    have hm2 : ∀ x : Int, ((s, l), x) ∉ reg := by
      intro x hx
      exact hm (List.mem_map_of_mem Prod.fst hx)
    simpa [List.nodup_append] using ⟨h, hm2⟩

theorem countKey_eq_zero_of_not_mem (reg : Registry)
    (k : String × LabelTuple) (h : k ∉ reg.map Prod.fst) :
    countKey reg k = 0 := by
  induction reg with
  | nil => rfl
  | cons e rest ih =>
    simp only [List.map_cons, List.mem_cons] at h
    push_neg at h
    simpa [countKey, List.countP_cons, Ne.symm h.1] using ih h.2

theorem countKey_setGauge_self (reg : Registry) (s : String) (l : LabelTuple)
    (v : Int) (h : keysNodup reg) :
    countKey (setGauge reg s l v) (s, l) = 1 := by
  induction reg with
  | nil => simp [countKey, setGauge, List.countP_cons]
  | cons e rest ih =>
    unfold keysNodup at h
    simp only [List.map_cons, List.nodup_cons] at h
    unfold setGauge
    by_cases he : e.1 = (s, l)
    · have : countKey rest (s, l) = 0 :=
        countKey_eq_zero_of_not_mem rest (s, l) (he ▸ h.1)
      simpa [countKey, List.countP_cons, he] using this
    · simpa [countKey, List.countP_cons, he] using ih h.2

theorem applyWrites_nil (reg : Registry) : applyWrites reg [] = reg := rfl

theorem applyWrites_cons (reg : Registry) (w : GaugeWrite)
    (ws : List GaugeWrite) :
    applyWrites reg (w :: ws) =
      applyWrites (setGauge reg w.series w.labels w.value) ws := rfl

theorem lookupGauge_applyWrites_of_not_written (reg : Registry)
    (ws : List GaugeWrite) (k : String × LabelTuple)
    (h : ∀ w ∈ ws, (w.series, w.labels) ≠ k) :
    lookupGauge (applyWrites reg ws) k = lookupGauge reg k := by
  induction ws generalizing reg with
  | nil => rfl
  | cons w ws ih =>
    rw [applyWrites_cons, ih _ (fun x hx => h x (List.mem_cons_of_mem _ hx)),
      setGauge_lookup_other]
    exact fun hk => h w (List.mem_cons_self _ _) (by rw [← hk])

theorem mem_keys_applyWrites (reg : Registry) (ws : List GaugeWrite)
    (k : String × LabelTuple) (hk : k ∈ reg.map Prod.fst) :
    k ∈ (applyWrites reg ws).map Prod.fst := by
  induction ws generalizing reg with
  | nil => exact hk
  | cons w ws ih =>
    rw [applyWrites_cons]
    exact ih _ (mem_keys_setGauge _ _ _ _ _ hk)

theorem lookupGauge_isSome_of_mem_keys (reg : Registry)
    (k : String × LabelTuple) (hk : k ∈ reg.map Prod.fst) :
    ∃ v, lookupGauge reg k = some v := by
  induction reg with
  | nil => simp at hk
  | cons e rest ih =>
    simp only [List.map_cons, List.mem_cons] at hk
    by_cases he : e.1 = k
    · exact ⟨e.2, by simp [lookupGauge, List.find?_cons, he]⟩
    · rcases hk with hk | hk
      · exact absurd hk.symm he
      · obtain ⟨v, hv⟩ := ih hk
        exact ⟨v, by simpa [lookupGauge, List.find?_cons, he] using hv⟩

theorem find?_append_right_none {α : Type} (p : α → Bool)
    (l₁ l₂ : List α) (h : l₂.find? p = none) :
    (l₁ ++ l₂).find? p = l₁.find? p := by
  induction l₁ with
  | nil => simpa using h
  | cons a l ih =>
    by_cases ha : p a
    · simp [List.find?_cons, ha]
    · simp [List.find?_cons, ha, ih]

theorem getField_obj_append (fields extra : List (String × Json))
    (n : String) (h : ∀ p ∈ extra, p.1 ≠ n) :
    Json.getField (.obj (fields ++ extra)) n =
      Json.getField (.obj fields) n := by
  have h2 : extra.find? (fun f => f.1 == n) = none := by
    rw [List.find?_eq_none]
    intro p hp
    simpa using h p hp
  simp only [Json.getField]
  rw [find?_append_right_none _ _ _ h2]

/-! ### Await-loop lemmas -/

theorem awaitLoop_all_ok (rs : List (Except JoinError (Except ReqwestError Unit)))
    (h : ∀ r ∈ rs, ∃ x, r = .ok x) :
    awaitLoop rs = .ok () ∧ awaitedCount rs = rs.length := by
  induction rs with
  | nil => exact ⟨rfl, rfl⟩
  | cons r rs ih =>
    obtain ⟨x, hx⟩ := h r (List.mem_cons_self _ _)
    subst hx
    have := ih (fun r hr => h r (List.mem_cons_of_mem _ hr))
    exact ⟨this.1, by simp [awaitedCount, this.2, Nat.add_comm]⟩

theorem joinResult_ok_of_not_panicked (r : TaskReturn)
    (h : taskPanicked r = false) : ∃ x, joinResult r = .ok x := by
  cases r with
  | ok => exact ⟨.ok (), rfl⟩
  | err e => exact ⟨.error e, rfl⟩
  | panicked m => simp [taskPanicked] at h

theorem awaitedResults_all (rs : List (TaskReturn × List GaugeWrite))
    (h : ∀ r ∈ rs, taskPanicked r.1 = false) : awaitedResults rs = rs := by
  induction rs with
  | nil => rfl
  | cons r rs ih =>
    have hr := h r (List.mem_cons_self _ _)
    simp [awaitedResults, hr, ih (fun x hx => h x (List.mem_cons_of_mem _ hx))]

/-! ### Further concrete fixtures -/

/-- A target whose fetch panics: its rate-limit header is not an integer. -/
def panickingTarget : String × Except ReqwestError HttpResponse :=
  ("bad.example", .ok ⟨200, [("x-ratelimit-remaining", "junk")], .null⟩)

/-- A target whose fetch succeeds end to end. -/
def healthyTarget : String × Except ReqwestError HttpResponse :=
  ("good.example", .ok ⟨200, okHeaders, goodInstanceBody⟩)

/-- A target whose fetch fails at the transport layer: `reqwest::get`
returns `Err`, so the task returns `Err` without panicking. -/
def unreachableTarget : String × Except ReqwestError HttpResponse :=
  ("down.example", .error (.network "connection refused"))

/-- An account target whose lookup returns `404 Not Found` with rate-limit
headers present. -/
def notFoundTarget : String × String × Except ReqwestError HttpResponse :=
  ("mas.to", "404account", .ok ⟨404, okHeaders, .null⟩)

/-- An instance response whose `x-ratelimit-reset` header is not an
RFC 3339 timestamp, while `x-ratelimit-remaining` parses fine. -/
def malformedResetResp : HttpResponse :=
  ⟨200, [("x-ratelimit-remaining", "100"), ("x-ratelimit-reset", "not-a-date")],
    goodInstanceBody⟩

/-! ### Claim C1 -/

/-- C1, counterexample: with two spawned instance fetches of which the first
panics (its rate-limit header is not an integer), the orchestrator returns
the join error — the cycle fails rather than logging and skipping — and it
awaits only 1 of the 2 spawned tasks, so it neither waits for every task nor
continues for the remaining targets. -/
theorem C1_counterexample :
    (collect_instances [panickingTarget, healthyTarget]).1 =
      .error (.panicked "x-ratelimit-remaining did not parse as i64") ∧
    awaitedCount (instanceJoinResults [panickingTarget, healthyTarget]) = 1 ∧
    [panickingTarget, healthyTarget].length = 2 :=
  ⟨rfl, rfl, rfl⟩

/-- C1 (amended): when every spawned task joins without panicking, the
orchestrators await every spawned fetch and return `Ok`, regardless of how
many fetches failed with transport errors (those `Err` results are discarded
by `.ok()`); a task-join failure, however, is propagated by `?` out of the
orchestrator immediately, without being logged or skipped and without the
remaining tasks being awaited. -/
theorem C1_join_all_semantics
    (instTargets : List (String × Except ReqwestError HttpResponse))
    (accTargets : List (String × String × Except ReqwestError HttpResponse))
    (hi : ∀ t ∈ instTargets, taskPanicked (collect_instance t.1 t.2).1 = false)
    (ha : ∀ t ∈ accTargets,
      taskPanicked (collect_account t.1 t.2.1 t.2.2).1 = false) :
    (collect_instances instTargets).1 = .ok () ∧
    awaitedCount (instanceJoinResults instTargets) = instTargets.length ∧
    (collect_accounts accTargets).1 = .ok () ∧
    awaitedCount (accountJoinResults accTargets) = accTargets.length := by
  have hi2 : ∀ r ∈ instanceJoinResults instTargets, ∃ x, r = .ok x := by
    intro r hr
    simp only [instanceJoinResults, List.mem_map] at hr
    obtain ⟨t, ht, rfl⟩ := hr
    exact joinResult_ok_of_not_panicked _ (hi t ht)
  have ha2 : ∀ r ∈ accountJoinResults accTargets, ∃ x, r = .ok x := by
    intro r hr
    simp only [accountJoinResults, List.mem_map] at hr
    obtain ⟨t, ht, rfl⟩ := hr
    exact joinResult_ok_of_not_panicked _ (ha t ht)
  have h1 := awaitLoop_all_ok _ hi2
  have h2 := awaitLoop_all_ok _ ha2
  refine ⟨h1.1, ?_, h2.1, ?_⟩
  · rw [h1.2]; simp [instanceJoinResults]
  · rw [h2.2]; simp [accountJoinResults]

/-- C1 witness: a cycle with one unreachable and one healthy instance
target plus one 404 account target awaits all tasks and returns `Ok`. -/
theorem C1_join_all_semantics_witness :
    (collect_instances [unreachableTarget, healthyTarget]).1 = .ok () ∧
    awaitedCount (instanceJoinResults [unreachableTarget, healthyTarget]) = 2 ∧
    (collect_accounts [notFoundTarget]).1 = .ok () ∧
    awaitedCount (accountJoinResults [notFoundTarget]) = 1 := by
  have := C1_join_all_semantics [unreachableTarget, healthyTarget]
    [notFoundTarget] (by decide) (by decide)
  simpa using this

/-! ### Claim C2 -/

/-- C2, counterexample: with `x-ratelimit-remaining: 100` and a malformed
`x-ratelimit-reset`, the instance fetch panics only after having already
written the remaining-gauge — so "no gauge updates at all for that target"
is false. -/
theorem C2_counterexample :
    parseRfc3339ToEpoch "not-a-date" = none ∧
    (collect_instance "mas.to" (.ok malformedResetResp)).2 =
      [⟨"mastodon_ratelimit_remaining", ["mas.to"], 100⟩] ∧
    (collect_instance "mas.to" (.ok malformedResetResp)).1 =
      .panicked "x-ratelimit-reset did not parse as DateTime" :=
  ⟨rfl, rfl, rfl⟩

/-- C2 (amended): a target whose `x-ratelimit-remaining` header fails to
parse performs no gauge updates at all; a target whose remaining header
parses but whose `x-ratelimit-reset` header fails to parse has already
written the remaining gauge and performs no further updates; in both cases
the fetch panics instead of updating more gauges, and each sibling target's
gauge writes are its own independent function of its own response. -/
theorem C2_header_failure_scope (inst account_id : String)
    (resp : HttpResponse) :
    ((∃ remStr, headerGet resp.headers "x-ratelimit-remaining" = some remStr ∧
        parseI64Str remStr = none) →
      (collect_instance inst (.ok resp)).2 = [] ∧
      (collect_account inst account_id (.ok resp)).2 = [] ∧
      taskPanicked (collect_instance inst (.ok resp)).1 = true ∧
      taskPanicked (collect_account inst account_id (.ok resp)).1 = true) ∧
    (∀ remStr r resetStr,
      headerGet resp.headers "x-ratelimit-remaining" = some remStr →
      parseI64Str remStr = some r →
      headerGet resp.headers "x-ratelimit-reset" = some resetStr →
      parseRfc3339ToEpoch resetStr = none →
      (collect_instance inst (.ok resp)).2 =
        [⟨"mastodon_ratelimit_remaining", [inst], r⟩] ∧
      (collect_account inst account_id (.ok resp)).2 =
        [⟨"mastodon_ratelimit_remaining", [inst], r⟩] ∧
      taskPanicked (collect_instance inst (.ok resp)).1 = true ∧
      taskPanicked (collect_account inst account_id (.ok resp)).1 = true) ∧
    (∀ targets, (collect_instances targets).2 =
      (targets.map (fun t => (collect_instance t.1 t.2).2)).flatten) ∧
    (∀ targets, (collect_accounts targets).2 =
      (targets.map (fun t => (collect_account t.1 t.2.1 t.2.2).2)).flatten) := by
  refine ⟨?_, ?_, fun _ => rfl, fun _ => rfl⟩
  · rintro ⟨remStr, hrem, hparse⟩
    refine ⟨?_, ?_, ?_, ?_⟩ <;>
      simp [collect_instance, collect_account, hrem, hparse, taskPanicked]
  · intro remStr r resetStr hrem hr hreset ht
    refine ⟨?_, ?_, ?_, ?_⟩ <;>
      simp [collect_instance, collect_account, hrem, hr, hreset, ht,
        taskPanicked]

/-- C2 witness: at the malformed-reset fixture, the instance fetch's only
gauge write is the remaining gauge and the fetch panics. -/
theorem C2_header_failure_scope_witness :
    (collect_instance "mas.to" (.ok malformedResetResp)).2 =
      [⟨"mastodon_ratelimit_remaining", ["mas.to"], 100⟩] ∧
    taskPanicked (collect_instance "mas.to" (.ok malformedResetResp)).1 =
      true := by
  have := (C2_header_failure_scope "mas.to" "1" malformedResetResp).2.1
    "100" 100 "not-a-date" rfl rfl rfl rfl
  exact ⟨this.1, this.2.2.1⟩

/-! ### Claim C3 -/

/-- C3: for every account fetch whose rate-limit headers parse, the two
rate-limit gauge writes come first, before the error status is inspected;
a 404 response is a non-error outcome: the fetch returns `Ok` having
written exactly the two rate-limit gauges and no per-account gauges, and a
cycle's writes are the concatenation of each target's own writes, so a 404
for one target never suppresses another target's writes. -/
theorem C3_ratelimit_before_status (inst account_id remStr resetStr : String)
    (r t : Int) (resp : HttpResponse)
    (hrem : headerGet resp.headers "x-ratelimit-remaining" = some remStr)
    (hr : parseI64Str remStr = some r)
    (hreset : headerGet resp.headers "x-ratelimit-reset" = some resetStr)
    (ht : parseRfc3339ToEpoch resetStr = some t) :
    ((collect_account inst account_id (.ok resp)).2.take 2 =
      [⟨"mastodon_ratelimit_remaining", [inst], r⟩,
        ⟨"mastodon_ratelimit_reset", [inst], t⟩]) ∧
    (resp.status = 404 →
      collect_account inst account_id (.ok resp) =
        (.ok, [⟨"mastodon_ratelimit_remaining", [inst], r⟩,
          ⟨"mastodon_ratelimit_reset", [inst], t⟩])) ∧
    (∀ targets, (collect_accounts targets).2 =
      (targets.map (fun t => (collect_account t.1 t.2.1 t.2.2).2)).flatten) := by
  refine ⟨?_, ?_, fun _ => rfl⟩
  · simp only [collect_account, hrem, hr, hreset, ht]
    by_cases hs : isErrorStatus resp.status
    · simp [hs]
    · simp only [hs]
      cases hdec : decodeAccountResponse resp.body with
      | error e => simp [hdec]
      | ok body =>
        cases hls : body.last_status_at with
        | none => simp [hdec, hls]
        | some s => cases hde : dateStrToEpoch s <;> simp [hdec, hls, hde]
  · intro h404
    simp [collect_account, hrem, hr, hreset, ht, h404, isErrorStatus]

/-- C3 witness: the 404 account fixture returns `Ok` with exactly the two
rate-limit writes. -/
theorem C3_ratelimit_before_status_witness :
    collect_account "mas.to" "404account"
      (.ok ⟨404, okHeaders, .null⟩) =
      (.ok, [⟨"mastodon_ratelimit_remaining", ["mas.to"], 100⟩,
        ⟨"mastodon_ratelimit_reset", ["mas.to"], 1669032000⟩]) := by
  have := C3_ratelimit_before_status "mas.to" "404account" "100"
    "2022-11-21T12:00:00Z" 100 1669032000 ⟨404, okHeaders, .null⟩
    rfl rfl rfl rfl
  exact this.2.1 rfl

/-! ### Claim C4 -/

/-- C4, counterexample: with a panicking first instance target and a
healthy second one (C1's input), the handler still returns a success
outcome, but it has awaited only 1 of the 2 spawned fetches before
serializing: with no straggler write landing in time, the serialized
registry is empty even though the healthy sibling's fetch produces writes,
so the response is not preceded by one full collection pass. -/
theorem C4_counterexample :
    awaitedCount (instanceJoinResults [panickingTarget, healthyTarget]) = 1 ∧
    [panickingTarget, healthyTarget].length = 2 ∧
    (metrics [] [panickingTarget, healthyTarget] [] []).1 =
      .ok (snapshot []) ∧
    (metrics [] [panickingTarget, healthyTarget] [] []).2 = [] ∧
    (collect_instance healthyTarget.1 healthyTarget.2).2 ≠ [] :=
  ⟨rfl, rfl, rfl, rfl, by decide⟩

/-- C4 (amended): each scrape request synchronously runs the two
orchestrators and then serializes the registry into the response body,
returning a success outcome for every registry state, every combination of
per-target outcomes and every resolution of the in-flight race, with no
caching — the response is always the snapshot of the registry freshly
updated by this request's cycle; but the serialization is guaranteed to be
preceded by the full collection pass only when no spawned task panics: then
every fetch is awaited, no fetch is still in flight, and the serialized
registry is exactly the prior registry updated with every target's writes. -/
theorem C4_scrape_success_and_freshness (reg : Registry)
    (instTargets : List (String × Except ReqwestError HttpResponse))
    (accTargets : List (String × String × Except ReqwestError HttpResponse)) :
    (∀ inflight, (metrics reg instTargets accTargets inflight).1 =
      .ok (snapshot ((metrics reg instTargets accTargets inflight).2))) ∧
    ((∀ t ∈ instTargets, taskPanicked (collect_instance t.1 t.2).1 = false) →
     (∀ t ∈ accTargets,
        taskPanicked (collect_account t.1 t.2.1 t.2.2).1 = false) →
      awaitedInstanceWrites instTargets = (collect_instances instTargets).2 ∧
      awaitedAccountWrites accTargets = (collect_accounts accTargets).2 ∧
      (metrics reg instTargets accTargets []).2 =
        applyWrites reg ((collect_instances instTargets).2 ++
          (collect_accounts accTargets).2)) := by
  refine ⟨fun _ => rfl, fun hi ha => ?_⟩
  have h1 : awaitedInstanceWrites instTargets =
      (collect_instances instTargets).2 := by
    unfold awaitedInstanceWrites
    rw [awaitedResults_all]
    · simp [collect_instances, List.map_map]
      rfl
    · intro r hr
      simp only [List.mem_map] at hr
      obtain ⟨t, ht, rfl⟩ := hr
      exact hi t ht
  have h2 : awaitedAccountWrites accTargets =
      (collect_accounts accTargets).2 := by
    unfold awaitedAccountWrites
    rw [awaitedResults_all]
    · simp [collect_accounts, List.map_map]
      rfl
    · intro r hr
      simp only [List.mem_map] at hr
      obtain ⟨t, ht, rfl⟩ := hr
      exact ha t ht
  refine ⟨h1, h2, ?_⟩
  simp [metrics, h1, h2]

/-- C4 witness: a cycle over an unreachable and a healthy instance target
plus a 404 account target — no task panics, so the response is the
snapshot of the registry updated with the full collection pass. -/
theorem C4_scrape_success_and_freshness_witness :
    (metrics [] [unreachableTarget, healthyTarget] [notFoundTarget] []).1 =
      .ok (snapshot
        ((metrics [] [unreachableTarget, healthyTarget]
          [notFoundTarget] []).2)) ∧
    awaitedInstanceWrites [unreachableTarget, healthyTarget] =
      (collect_instances [unreachableTarget, healthyTarget]).2 ∧
    (metrics [] [unreachableTarget, healthyTarget] [notFoundTarget] []).2 =
      applyWrites [] ((collect_instances [unreachableTarget, healthyTarget]).2
        ++ (collect_accounts [notFoundTarget]).2) := by
  have h := C4_scrape_success_and_freshness []
    [unreachableTarget, healthyTarget] [notFoundTarget]
  have h2 := h.2 (by decide) (by decide)
  exact ⟨h.1 [], h2.1, h2.2.2⟩

/-! ### Claim C5 -/

/-- C5: for an account response that decodes successfully, a present
`last_status_at` calendar date `YYYY-MM-DD` yields a gauge write to
`mastodon_account_last_status_at` whose value is the Unix timestamp of
midnight UTC of that date; an absent field yields no write to that series,
so applying the target's cycle writes leaves every prior value of that
series unchanged. -/
theorem C5_last_status_at (inst account_id remStr resetStr : String)
    (r t : Int) (resp : HttpResponse) (body : AccountResponse)
    (hrem : headerGet resp.headers "x-ratelimit-remaining" = some remStr)
    (hr : parseI64Str remStr = some r)
    (hreset : headerGet resp.headers "x-ratelimit-reset" = some resetStr)
    (ht : parseRfc3339ToEpoch resetStr = some t)
    (hs : isErrorStatus resp.status = false)
    (hdec : decodeAccountResponse resp.body = .ok body) :
    (∀ s y m d, body.last_status_at = some s →
      parseDateYMD s = some (y, m, d) →
      (⟨"mastodon_account_last_status_at",
        [inst, account_id, body.username], dateMidnightEpoch y m d⟩ :
        GaugeWrite) ∈ (collect_account inst account_id (.ok resp)).2) ∧
    (body.last_status_at = none →
      (∀ w ∈ (collect_account inst account_id (.ok resp)).2,
        w.series ≠ "mastodon_account_last_status_at") ∧
      (∀ (reg : Registry) (labels : LabelTuple),
        lookupGauge
          (applyWrites reg (collect_account inst account_id (.ok resp)).2)
          ("mastodon_account_last_status_at", labels) =
        lookupGauge reg ("mastodon_account_last_status_at", labels))) := by
  constructor
  · intro s y m d hls hp
    have hde : dateStrToEpoch s = some (dateMidnightEpoch y m d) := by
      simp [dateStrToEpoch, hp]
    simp [collect_account, hrem, hr, hreset, ht, hs, hdec, hls, hde]
  · intro hls
    have hexpl : (collect_account inst account_id (.ok resp)).2 =
        [⟨"mastodon_ratelimit_remaining", [inst], r⟩,
          ⟨"mastodon_ratelimit_reset", [inst], t⟩,
          ⟨"mastodon_account_followers_count",
            [inst, account_id, body.username], body.followers_count⟩,
          ⟨"mastodon_account_following_count",
            [inst, account_id, body.username], body.following_count⟩,
          ⟨"mastodon_account_statuses_count",
            [inst, account_id, body.username], body.statuses_count⟩] := by
      simp [collect_account, hrem, hr, hreset, ht, hs, hdec, hls]
    constructor
    · intro w hw
      rw [hexpl] at hw
      simp only [List.mem_cons, List.not_mem_nil, or_false] at hw
      rcases hw with rfl | rfl | rfl | rfl | rfl <;> simp
    · intro reg labels
      rw [hexpl]
      apply lookupGauge_applyWrites_of_not_written
      intro w hw
      simp only [List.mem_cons, List.not_mem_nil, or_false] at hw
      rcases hw with rfl | rfl | rfl | rfl | rfl <;> simp

/-- C5 witness: a successful account fetch whose body carries
`last_status_at: "2022-11-21"` writes the gauge value 1668988800, the Unix
timestamp of 2022-11-21T00:00:00Z. -/
theorem C5_last_status_at_witness :
    (⟨"mastodon_account_last_status_at", ["mas.to", "1", "shini"],
      1668988800⟩ : GaugeWrite) ∈
      (collect_account "mas.to" "1"
        (.ok ⟨200, okHeaders, goodAccountBody⟩)).2 := by
  have := C5_last_status_at "mas.to" "1" "100" "2022-11-21T12:00:00Z"
    100 1669032000 ⟨200, okHeaders, goodAccountBody⟩
    ⟨"shini", 100, 50, 200, some "2022-11-21"⟩
    rfl rfl rfl rfl rfl rfl
  simpa using this.1 "2022-11-21" 2022 11 21 rfl rfl

/-! ### Claim C6 -/

/-- C6: the registry holds at most one live value per (series, label tuple):
after two consecutive writes to the same series and tuple the key is live
exactly once, holding the second value (last-write-wins), and the snapshot
has exactly one line per live entry, so no duplicate line for the tuple. -/
theorem C6_last_write_wins (reg : Registry) (s : String) (l : LabelTuple)
    (v1 v2 : Int) (h : keysNodup reg) :
    lookupGauge (setGauge (setGauge reg s l v1) s l v2) (s, l) = some v2 ∧
    countKey (setGauge (setGauge reg s l v1) s l v2) (s, l) = 1 ∧
    keysNodup (setGauge (setGauge reg s l v1) s l v2) ∧
    snapshotLines (setGauge (setGauge reg s l v1) s l v2) =
      (setGauge (setGauge reg s l v1) s l v2).map renderEntry := by
  refine ⟨setGauge_lookup_self _ _ _ _, ?_, ?_, rfl⟩
  · exact countKey_setGauge_self _ _ _ _ (keysNodup_setGauge _ _ _ _ h)
  · exact keysNodup_setGauge _ _ _ _ (keysNodup_setGauge _ _ _ _ h)

/-- C6 witness: a followers count written as 100 then 101 for the same
label tuple leaves one live entry holding 101. -/
theorem C6_last_write_wins_witness :
    lookupGauge (setGauge (setGauge [] "mastodon_account_followers_count"
        ["mas.to", "1", "shini"] 100) "mastodon_account_followers_count"
        ["mas.to", "1", "shini"] 101)
      ("mastodon_account_followers_count", ["mas.to", "1", "shini"]) =
      some 101 ∧
    countKey (setGauge (setGauge [] "mastodon_account_followers_count"
        ["mas.to", "1", "shini"] 100) "mastodon_account_followers_count"
        ["mas.to", "1", "shini"] 101)
      ("mastodon_account_followers_count", ["mas.to", "1", "shini"]) = 1 := by
  have := C6_last_write_wins [] "mastodon_account_followers_count"
    ["mas.to", "1", "shini"] 100 101 (by simp [keysNodup])
  exact ⟨this.1, this.2.1⟩

/-! ### Claim C7 -/

/-- First of two account targets on the same instance: 10 requests
remaining. -/
def C7target1 : String × String × Except ReqwestError HttpResponse :=
  ("mas.to", "1", .ok ⟨404,
    [("x-ratelimit-remaining", "10"),
      ("x-ratelimit-reset", "2022-11-21T00:00:00Z")], .null⟩)

/-- Second account target on the same instance: 5 requests remaining. -/
def C7target2 : String × String × Except ReqwestError HttpResponse :=
  ("mas.to", "2", .ok ⟨404,
    [("x-ratelimit-remaining", "5"),
      ("x-ratelimit-reset", "2022-11-21T01:00:00Z")], .null⟩)

/-- C7, counterexample: the rate-limit gauges are labelled by instance only,
so the two distinct account targets ("mas.to","1") and ("mas.to","2") share
one series instance: after the cycle the registry holds a single
`mastodon_ratelimit_remaining` entry (value 5, from the second fetch) and a
single `mastodon_ratelimit_reset` entry — not one sample per target, and
the first target's sample (10) is held nowhere. -/
theorem C7_counterexample :
    applyWrites [] (collect_accounts [C7target1, C7target2]).2 =
      [(("mastodon_ratelimit_remaining", ["mas.to"]), 5),
        (("mastodon_ratelimit_reset", ["mas.to"]), 1668992400)] ∧
    (collect_accounts [C7target1, C7target2]).1 = .ok () ∧
    [C7target1, C7target2].length = 2 :=
  ⟨rfl, rfl, rfl⟩

/-- C7 (amended): each fetch (instance or account) produces a fresh
rate-limit sample — its first two gauge writes are `remaining` and the
reset epoch, labelled by the instance name only — and the registry holds
only the latest sample per instance label, overwritten on each write and
never accumulated; account targets sharing an instance therefore share one
sample. -/
theorem C7_ratelimit_per_instance_label (inst account_id remStr resetStr :
    String) (r t : Int) (resp : HttpResponse)
    (hrem : headerGet resp.headers "x-ratelimit-remaining" = some remStr)
    (hr : parseI64Str remStr = some r)
    (hreset : headerGet resp.headers "x-ratelimit-reset" = some resetStr)
    (ht : parseRfc3339ToEpoch resetStr = some t) :
    ((collect_instance inst (.ok resp)).2.take 2 =
      [⟨"mastodon_ratelimit_remaining", [inst], r⟩,
        ⟨"mastodon_ratelimit_reset", [inst], t⟩]) ∧
    ((collect_account inst account_id (.ok resp)).2.take 2 =
      [⟨"mastodon_ratelimit_remaining", [inst], r⟩,
        ⟨"mastodon_ratelimit_reset", [inst], t⟩]) ∧
    (∀ (reg : Registry) (v1 v2 : Int), keysNodup reg →
      lookupGauge (setGauge (setGauge reg "mastodon_ratelimit_remaining"
          [inst] v1) "mastodon_ratelimit_remaining" [inst] v2)
        ("mastodon_ratelimit_remaining", [inst]) = some v2 ∧
      countKey (setGauge (setGauge reg "mastodon_ratelimit_remaining"
          [inst] v1) "mastodon_ratelimit_remaining" [inst] v2)
        ("mastodon_ratelimit_remaining", [inst]) = 1) := by
  refine ⟨?_, ?_, ?_⟩
  · simp only [collect_instance, hrem, hr, hreset, ht]
    by_cases hs : isErrorStatus resp.status
    · simp [hs]
    · simp only [hs]
      cases hdec : decodeInstanceResponse resp.body <;> simp [hdec]
  · simp only [collect_account, hrem, hr, hreset, ht]
    by_cases hs : isErrorStatus resp.status
    · simp [hs]
    · simp only [hs]
      cases hdec : decodeAccountResponse resp.body with
      | error e => simp [hdec]
      | ok body =>
        cases hls : body.last_status_at with
        | none => simp [hdec, hls]
        | some s => cases hde : dateStrToEpoch s <;> simp [hdec, hls, hde]
  · intro reg v1 v2 h
    exact ⟨setGauge_lookup_self _ _ _ _,
      countKey_setGauge_self _ _ _ _ (keysNodup_setGauge _ _ _ _ h)⟩

/-- C7 witness: a healthy instance fetch's first two writes are the fresh
rate-limit sample, and overwriting the remaining gauge leaves one live
entry with the latest value. -/
theorem C7_ratelimit_per_instance_label_witness :
    ((collect_instance "good.example"
      (.ok ⟨200, okHeaders, goodInstanceBody⟩)).2.take 2 =
      [⟨"mastodon_ratelimit_remaining", ["good.example"], 100⟩,
        ⟨"mastodon_ratelimit_reset", ["good.example"], 1669032000⟩]) ∧
    lookupGauge (setGauge (setGauge [] "mastodon_ratelimit_remaining"
        ["good.example"] 10) "mastodon_ratelimit_remaining"
        ["good.example"] 5)
      ("mastodon_ratelimit_remaining", ["good.example"]) = some 5 := by
  have := C7_ratelimit_per_instance_label "good.example" "1" "100"
    "2022-11-21T12:00:00Z" 100 1669032000 ⟨200, okHeaders, goodInstanceBody⟩
    rfl rfl rfl rfl
  exact ⟨this.1, (this.2.2 [] 10 5 (by simp [keysNodup])).1⟩

/-! ### Claim C8 -/

/-- An account response whose body lacks the required `username` field. -/
def missingUsernameResp : HttpResponse :=
  ⟨200, okHeaders, .obj [("followers_count", .num 1),
    ("following_count", .num 2), ("statuses_count", .num 3)]⟩

/-- C8, counterexample: a body missing the required `username` field makes
`decodeAccountResponse` return a decode error, but the collector unwraps
that result, so the fetch terminates by panicking — the decode failure is
not contained as a per-target failure value. -/
theorem C8_counterexample :
    decodeAccountResponse missingUsernameResp.body =
      .error "missing field username" ∧
    (collect_account "mas.to" "1" (.ok missingUsernameResp)).1 =
      .panicked "missing field username" :=
  ⟨rfl, rfl⟩

/-- C8 (amended): decoding itself is schema-tolerant — appending fields
whose names are outside the decoded schema changes neither decoder's
result, and a missing required field yields a decode error value, never an
unchecked crash of the decoder; the collectors, however, `unwrap` the
decode result, so at the fetch level a decode failure becomes a task panic
(contained only at the task-join boundary) rather than a returned error. -/
theorem C8_schema_tolerant_decode :
    (∀ (fields extra : List (String × Json)),
      (∀ p ∈ extra, p.1 ∉ accountFieldNames) →
      decodeAccountResponse (.obj (fields ++ extra)) =
        decodeAccountResponse (.obj fields)) ∧
    (∀ (fields extra : List (String × Json)),
      (∀ p ∈ extra, p.1 ∉ instanceFieldNames) →
      decodeInstanceResponse (.obj (fields ++ extra)) =
        decodeInstanceResponse (.obj fields)) ∧
    (∀ fields : List (String × Json),
      Json.getField (.obj fields) "username" = none →
      decodeAccountResponse (.obj fields) =
        .error "missing field username") ∧
    (∀ fields : List (String × Json),
      Json.getField (.obj fields) "domain" = none →
      decodeInstanceResponse (.obj fields) = .error "missing field domain") ∧
    (∀ (inst account_id remStr resetStr : String) (r t : Int)
      (resp : HttpResponse) (e : String),
      headerGet resp.headers "x-ratelimit-remaining" = some remStr →
      parseI64Str remStr = some r →
      headerGet resp.headers "x-ratelimit-reset" = some resetStr →
      parseRfc3339ToEpoch resetStr = some t →
      isErrorStatus resp.status = false →
      decodeAccountResponse resp.body = .error e →
      (collect_account inst account_id (.ok resp)).1 = .panicked e) := by
  refine ⟨?_, ?_, ?_, ?_, ?_⟩
  · intro fields extra h
    have hn : ∀ n, n ∈ accountFieldNames →
        Json.getField (.obj (fields ++ extra)) n =
          Json.getField (.obj fields) n := by
      intro n hne
      exact getField_obj_append fields extra n
        (fun p hp hpn => h p hp (hpn ▸ hne))
    simp only [decodeAccountResponse, decodeField, decodeOptStringField,
      hn "username" (by simp [accountFieldNames]),
      hn "followers_count" (by simp [accountFieldNames]),
      hn "following_count" (by simp [accountFieldNames]),
      hn "statuses_count" (by simp [accountFieldNames]),
      hn "last_status_at" (by simp [accountFieldNames])]
  · intro fields extra h
    have hn : ∀ n, n ∈ instanceFieldNames →
        Json.getField (.obj (fields ++ extra)) n =
          Json.getField (.obj fields) n := by
      intro n hne
      exact getField_obj_append fields extra n
        (fun p hp hpn => h p hp (hpn ▸ hne))
    simp only [decodeInstanceResponse, decodeField,
      hn "domain" (by simp [instanceFieldNames]),
      hn "title" (by simp [instanceFieldNames]),
      hn "version" (by simp [instanceFieldNames]),
      hn "registrations" (by simp [instanceFieldNames])]
  · intro fields h
    simp [decodeAccountResponse, decodeField, h]
  · intro fields h
    simp [decodeInstanceResponse, decodeField, h]
  · intro inst account_id remStr resetStr r t resp e hrem hr hreset ht hs hdec
    simp [collect_account, hrem, hr, hreset, ht, hs, hdec]

/-- C8 witness: appending an unknown `note` field to a well-formed account
body leaves the decode result unchanged, and a body missing `username`
decodes to a contained error value. -/
theorem C8_schema_tolerant_decode_witness :
    decodeAccountResponse
        (.obj (goodAccountFields ++ [("note", .str "extra")])) =
      decodeAccountResponse (.obj goodAccountFields) ∧
    decodeAccountResponse
        (.obj [("followers_count", .num 1)]) =
      .error "missing field username" := by
  exact ⟨C8_schema_tolerant_decode.1 goodAccountFields
      [("note", .str "extra")] (by decide),
    C8_schema_tolerant_decode.2.2.1 [("followers_count", .num 1)] rfl⟩

/-! ### Claim C9 -/

/-- C9: for every instance response that decodes successfully, the values
written to `mastodon_registrations_enabled` and
`mastodon_registrations_approval_required` are exactly 0 or 1 (they are
`i64::from(bool)`). -/
theorem C9_registrations_zero_one (inst remStr resetStr : String)
    (r t : Int) (resp : HttpResponse) (body : InstanceResponse)
    (hrem : headerGet resp.headers "x-ratelimit-remaining" = some remStr)
    (hr : parseI64Str remStr = some r)
    (hreset : headerGet resp.headers "x-ratelimit-reset" = some resetStr)
    (ht : parseRfc3339ToEpoch resetStr = some t)
    (hs : isErrorStatus resp.status = false)
    (hdec : decodeInstanceResponse resp.body = .ok body) :
    ∀ w ∈ (collect_instance inst (.ok resp)).2,
      (w.series = "mastodon_registrations_enabled" ∨
        w.series = "mastodon_registrations_approval_required") →
      (w.value = 0 ∨ w.value = 1) := by
  have hexpl : (collect_instance inst (.ok resp)).2 =
      [⟨"mastodon_ratelimit_remaining", [inst], r⟩,
        ⟨"mastodon_ratelimit_reset", [inst], t⟩,
        ⟨"mastodon_info", [inst, body.domain, body.title, body.version], 1⟩,
        ⟨"mastodon_registrations_enabled", [inst],
          boolToI64 body.registrations.enabled⟩,
        ⟨"mastodon_registrations_approval_required", [inst],
          boolToI64 body.registrations.approval_required⟩] := by
    simp [collect_instance, hrem, hr, hreset, ht, hs, hdec]
  intro w hw hser
  rw [hexpl] at hw
  simp only [List.mem_cons, List.not_mem_nil, or_false] at hw
  rcases hw with rfl | rfl | rfl | rfl | rfl
  · simp at hser
  · simp at hser
  · simp
  · cases body.registrations.enabled <;> simp [boolToI64]
  · cases body.registrations.approval_required <;> simp [boolToI64]

/-- C9 witness: the `mastodon_registrations_enabled` write of a healthy
instance fetch has value 1, which the claim's property accepts. -/
theorem C9_registrations_zero_one_witness :
    ((⟨"mastodon_registrations_enabled", ["good.example"], 1⟩ :
      GaugeWrite).value = 0 ∨
     (⟨"mastodon_registrations_enabled", ["good.example"], 1⟩ :
      GaugeWrite).value = 1) := by
  exact C9_registrations_zero_one "good.example" "100"
    "2022-11-21T12:00:00Z" 100 1669032000 ⟨200, okHeaders, goodInstanceBody⟩
    ⟨"mas.to", "Mastodon", "4.0.0", ⟨true, false⟩⟩ rfl rfl rfl rfl rfl rfl
    _ (by decide) (Or.inl rfl)

/-! ### Claim C10 -/

/-- A later response for the same instance whose decoded title and version
differ from the earlier ones. -/
def retitledInstanceResp : HttpResponse :=
  ⟨200, okHeaders, .obj [("domain", .str "mas.to"),
    ("title", .str "Mastodon v2"), ("version", .str "4.1.0"),
    ("registrations", .obj [("enabled", .bool false),
      ("approval_required", .bool true)])]⟩

/-- The registry after fetching the same instance twice, the second fetch
decoding different label values. -/
def C10reg : Registry :=
  applyWrites
    (applyWrites [] (collect_instance "mas.to"
      (.ok ⟨200, okHeaders, goodInstanceBody⟩)).2)
    (collect_instance "mas.to" (.ok retitledInstanceResp)).2

/-- C10: label tuples are never removed — a key live in the registry stays
live (with some value) after any further sequence of writes; and because
decoded fields are used as label values, refetching the same instance with
different decoded title/version creates a second `mastodon_info` tuple
while the old one persists: the concrete two-fetch registry holds two
`mastodon_info` entries, both with value 1, for the same instance label. -/
theorem C10_labels_persist (reg : Registry) (ws : List GaugeWrite)
    (k : String × LabelTuple) (hk : k ∈ reg.map Prod.fst) :
    (k ∈ (applyWrites reg ws).map Prod.fst ∧
      ∃ v, lookupGauge (applyWrites reg ws) k = some v) ∧
    (C10reg.countP (fun e => decide (e.1.1 = "mastodon_info")) = 2 ∧
      lookupGauge C10reg
        ("mastodon_info", ["mas.to", "mas.to", "Mastodon", "4.0.0"]) =
        some 1 ∧
      lookupGauge C10reg
        ("mastodon_info", ["mas.to", "mas.to", "Mastodon v2", "4.1.0"]) =
        some 1) := by
  refine ⟨⟨mem_keys_applyWrites _ _ _ hk, ?_⟩, by decide, rfl, rfl⟩
  exact lookupGauge_isSome_of_mem_keys _ _ (mem_keys_applyWrites _ _ _ hk)

/-- C10 witness: a live rate-limit tuple survives an unrelated later write. -/
theorem C10_labels_persist_witness :
    (("mastodon_ratelimit_remaining", ["mas.to"]) ∈
      (applyWrites [(("mastodon_ratelimit_remaining", ["mas.to"]), 7)]
        [⟨"mastodon_info", ["x", "x", "x", "x"], 1⟩]).map Prod.fst ∧
      ∃ v, lookupGauge
        (applyWrites [(("mastodon_ratelimit_remaining", ["mas.to"]), 7)]
          [⟨"mastodon_info", ["x", "x", "x", "x"], 1⟩])
        ("mastodon_ratelimit_remaining", ["mas.to"]) = some v) ∧
    (C10reg.countP (fun e => decide (e.1.1 = "mastodon_info")) = 2 ∧
      lookupGauge C10reg
        ("mastodon_info", ["mas.to", "mas.to", "Mastodon", "4.0.0"]) =
        some 1 ∧
      lookupGauge C10reg
        ("mastodon_info", ["mas.to", "mas.to", "Mastodon v2", "4.1.0"]) =
        some 1) := by
  exact C10_labels_persist
    [(("mastodon_ratelimit_remaining", ["mas.to"]), 7)]
    [⟨"mastodon_info", ["x", "x", "x", "x"], 1⟩]
    ("mastodon_ratelimit_remaining", ["mas.to"]) (by decide)

end MastodonExporter
